import Mathlib

/-!
Verification of the perlmod marshalling core (the `perlmod` crate) against its
natural-language specification.

The development is a shallow embedding of the Rust sources under
`src/perlmod/src/`:

* `PerlVal` models the perl interpreter's dynamic values structurally: a
  scalar cell with its type flags and value slots (`scalar.rs`, bitflags
  `Flags` and enum `Type`), a reference (`rv`), an array (`av`) and a hash
  (`hv`).  The C glue (`src/glue.c`, compiled by `build.rs` but not part of
  the staged sources) is modelled from the spec where its behaviour decides a
  property; every such definition says so in its doc comment.
* `RVal` / `RTy` model the statically typed Rust data driven through serde:
  a value of a supported shape together with the type that directs
  deserialization.  The serde `derive` glue is an external collaborator; its
  standard visitor behaviour is inlined into the drivers below.
* `toValueInner` / `deserialize` embed `ser.rs` and `de.rs`; `to_value` and
  `from_value` add the thread-local raw-passthrough flag bookkeeping of
  `raw_value.rs` (`RawGuard`).
* Separate small state models cover the reference-count behaviour of the raw
  escape (`RcHeap`), `Array::get` (`AvHeap`) and the magic subsystem
  (`MagicEntry`).
-/

namespace Perlmod

/-- Scalar type flags, from `scalar.rs` (bitflags `Flags`): a perl scalar can
carry any combination of INTEGER, DOUBLE and STRING. -/
structure Flags where
  integer : Bool
  double : Bool
  string : Bool
deriving DecidableEq, Repr

/-- The empty flag set (an undefined or typeless scalar). -/
def Flags.emptyFlags : Flags := ⟨false, false, false⟩

/-- Flags.is_empty from the bitflags crate: no flag is set. -/
def Flags.isEmpty (f : Flags) : Bool := !f.integer && !f.double && !f.string

/-- A perl value, modelled structurally.  A `scalar` cell carries its flags
and its integer (IV), numeric (NV) and string (PV) slots; the NV slot is kept
as an `Int` since no claim inspects floating-point contents.  `rv` is a
reference (the target inlined), `av` an array, `hv` a hash with string keys.
Modelled from the spec: the data model section limits dynamic values to
scalar, sequence, map and reference shapes, which the C glue type predicates
(`RSPL_is_array`, `RSPL_is_hash`, `RSPL_is_reference`) distinguish. -/
inductive PerlVal where
  | scalar (fl : Flags) (iv : Int) (nv : Int) (pv : String) (pvUtf8 : Bool)
  | rv (target : PerlVal)
  | av (elems : List PerlVal)
  | hv (entries : List (String × PerlVal))
deriving Repr

/-- Scalar::new_undef: a cell with no flags and empty slots. -/
def undefVal : PerlVal := .scalar Flags.emptyFlags 0 0 "" false

/-- Scalar::new_int / new_uint via RSPL_newSViv / RSPL_newSVuv: an
integer-flagged cell holding the value in the IV slot.  Modelled from the
spec: the glue constructors produce a native numeric scalar. -/
def mkInt (n : Int) : PerlVal := .scalar ⟨true, false, false⟩ n 0 "" false

/-- Scalar::new_string (scalar.rs lines 92-103): a string-flagged cell; the
utf8 tag is set exactly when the string has a byte outside ASCII. -/
def mkStr (s : String) : PerlVal :=
  .scalar ⟨false, false, true⟩ 0 0 s (s.toList.any fun c => c.toNat ≥ 0x80)

/-- The discriminant of the tagged `Value` union (value.rs). -/
inductive ValueTag where
  | scalar
  | reference
  | array
  | hash
deriving DecidableEq, Repr

/-- RSPL_is_array.  Modelled from the spec: the glue checks whether the cell
itself is an array container (an AV). -/
def RSPL_is_array : PerlVal → Bool
  | .av _ => true
  | _ => false

/-- RSPL_is_hash.  Modelled from the spec: the glue checks whether the cell
itself is a hash container (an HV). -/
def RSPL_is_hash : PerlVal → Bool
  | .hv _ => true
  | _ => false

/-- RSPL_is_reference.  Modelled from the spec: the glue checks whether the
cell is a reference to another value. -/
def RSPL_is_reference : PerlVal → Bool
  | .rv _ => true
  | _ => false

/-- The classification performed by `impl From<Scalar> for Value`
(value.rs lines 403-417), as a function of the three glue predicate results
the Rust code branches on, in the code's order: array first, then hash, then
reference, then plain scalar. -/
def classifyFromFlags (isArr isHash isRef : Bool) : ValueTag :=
  if isArr then .array
  else if isHash then .hash
  else if isRef then .reference
  else .scalar

/-- Value::from (a Scalar): classification of a raw handle, value.rs
lines 403-417. -/
def valueFromScalar (v : PerlVal) : ValueTag :=
  classifyFromFlags (RSPL_is_array v) (RSPL_is_hash v) (RSPL_is_reference v)

/-- Classification in the order the spec describes (reference first, then
array and hash): the spec-side function for comparing against
`classifyFromFlags`. -/
def classifySpecOrder (isArr isHash isRef : Bool) : ValueTag :=
  if isRef then .reference
  else if isArr then .array
  else if isHash then .hash
  else .scalar

/-- Errors of the marshalling layer (error.rs `Error`): a message string. -/
abbrev Err := String

/-- hv_store semantics: replace the value of an existing key in place,
otherwise append the new entry.  Modelled from the spec: the glue's
RSPL_hv_store stores one value per key. -/
def hvStore : List (String × PerlVal) → String → PerlVal → List (String × PerlVal)
  | [], key, val => [(key, val)]
  | (k, v) :: rest, key, val =>
      if k = key then (k, val) :: rest else (k, v) :: hvStore rest key val

/-- A statically typed Rust value of a supported shape, as serde drives it
through the serializer: the value universe of the round-trip property. -/
inductive RVal where
  | vBool (b : Bool)
  | vI64 (n : Int)
  | vU64 (n : Nat)
  | vStr (s : String)
  | vNone
  | vSome (v : RVal)
  | vUnit
  | vSeq (vs : List RVal)
  | vStruct (fields : List (String × RVal))
  | vUnitVariant (name : String)
  | vNewtypeVariant (name : String) (v : RVal)
  | vTupleVariant (name : String) (vs : List RVal)
  | vStructVariant (name : String) (fields : List (String × RVal))
deriving Repr

mutual

/-- The serializer of ser.rs, with serde's dispatch for each shape inlined:
booleans via serialize_bool (Value::new_uint of 0 or 1), integers via
serialize_i64 / serialize_u64 (Value::new_int / new_uint), strings via
serialize_str (Value::new_string), None and unit via serialize_unit
(Value::new_undef), Some via serialize_some (serializes the inner value with
no wrapper), sequences and tuples via SerArray (a new Array behind one
reference), maps and structs via SerHash (a new Hash behind one reference),
unit variants as the variant-name string, newtype variants as a bare
single-key Hash (`Value::from(hash)`, ser.rs lines 157-171), tuple variants
via `SerVariant<SerArray>` whose `end` returns `Value::new_ref(&self.inner.array)`
(ser.rs lines 544-559) so the single-key hash built by `new` is discarded,
and struct variants via `SerVariant<SerHash>` whose `end` returns
`Value::new_ref(&self.hash)` (ser.rs lines 576-596). -/
def toValueInner : RVal → Except Err PerlVal
  | .vBool b => .ok (mkInt (if b then 1 else 0))
  | .vI64 n => .ok (mkInt n)
  | .vU64 n => .ok (mkInt n)
  | .vStr s => .ok (mkStr s)
  | .vNone => .ok undefVal
  | .vUnit => .ok undefVal
  | .vSome v => toValueInner v
  | .vSeq vs => do
      let elems ← serElems vs
      .ok (.rv (.av elems))
  | .vStruct fields => do
      let entries ← serFields fields []
      .ok (.rv (.hv entries))
  | .vUnitVariant name => .ok (mkStr name)
  | .vNewtypeVariant name v => do
      let pv ← toValueInner v
      .ok (.hv (hvStore [] name pv))
  | .vTupleVariant _name vs => do
      let elems ← serElems vs
      .ok (.rv (.av elems))
  | .vStructVariant name fields => do
      let entries ← serFields fields []
      .ok (.rv (.hv (hvStore [] name (.rv (.hv entries)))))

/-- SerArray::serialize_element for each element in order (array.rs push). -/
def serElems : List RVal → Except Err (List PerlVal)
  | [] => .ok []
  | v :: rest => do
      let pv ← toValueInner v
      let prest ← serElems rest
      .ok (pv :: prest)

/-- SerHash::serialize_field for each field in order (hash.rs insert). -/
def serFields : List (String × RVal) → List (String × PerlVal) →
    Except Err (List (String × PerlVal))
  | [], acc => .ok acc
  | (k, v) :: rest, acc => do
      let pv ← toValueInner v
      serFields rest (hvStore acc k pv)

end

/-- The raw-passthrough guard of raw_value.rs (struct RawGuard): it saves the
thread-local flag's previous value. -/
structure RawGuard where
  saved : Bool

/-- raw_value.rs `guarded(on)`: replace the thread-local SERIALIZE_RAW flag
with `on` and keep its previous value in the guard. -/
def rawGuarded (enable : Bool) (flag : Bool) : RawGuard × Bool := (⟨flag⟩, enable)

/-- Dropping a RawGuard.  raw_value.rs declares no `Drop` impl for
`RawGuard`, so dropping the guard leaves the thread-local flag unchanged; the
saved value in the guard is never read.  (Contrast `ListGuard` in
ser/return_value.rs, whose `Drop` writes the saved value back.) -/
def dropRawGuard (_g : RawGuard) (flag : Bool) : Bool := flag

/-- The list-mode guard of ser/return_value.rs (struct ListGuard), shown for
contrast: it saves the previous flag value exactly like RawGuard does. -/
structure ListGuard where
  saved : Bool

/-- Dropping a ListGuard: return_value.rs lines 20-24 define `Drop` to write
the saved value back into the thread-local. -/
def dropListGuard (g : ListGuard) (_flag : Bool) : Bool := g.saved

/-- ser.rs `to_value` (lines 24-30): install the raw guard with the flag set,
serialize, and return; the pair's second component is the thread-local flag
after the call returns and the guard is dropped. -/
def to_value (x : RVal) (flag : Bool) : Except Err PerlVal × Bool :=
  let gf := rawGuarded true flag
  (toValueInner x, dropRawGuard gf.1 gf.2)

/-- deref_current (de.rs lines 61-68): repeatedly dereference until the value
is not a Reference.  In this structural model a reference target always
exists, so the dangling-target failure path cannot arise. -/
def derefCurrent : PerlVal → PerlVal
  | .rv t => derefCurrent t
  | .scalar fl iv nv pv u => .scalar fl iv nv pv u
  | .av elems => .av elems
  | .hv entries => .hv entries

/-- RSPL_SvTRUE.  Modelled from the spec: the host truthiness rule — undef is
false, a string is true unless it is empty or "0", a number is true unless it
is zero, and containers and references are true. -/
def svTRUE : PerlVal → Bool
  | .scalar fl iv nv pv _ =>
      if fl.string then decide (pv ≠ "" ∧ pv ≠ "0")
      else if fl.integer then decide (iv ≠ 0)
      else if fl.double then decide (nv ≠ 0)
      else false
  | _ => true

/-- deserialize_bool (de.rs lines 202-223) after `get()`: a scalar whose
flags are empty or intersect INTEGER or DOUBLE is decoded with the host
truthiness rule (RSPL_SvTRUE); any other scalar (in particular a purely
string-flagged one) fails with "expected bool value".  Hashes and arrays are
dispatched to visit_map / visit_seq, which serde's bool visitor rejects. -/
def deserialize_bool (input : PerlVal) : Except Err RVal :=
  match derefCurrent input with
  | .scalar fl iv nv pv u =>
      if fl.isEmpty || (fl.integer || fl.double) then
        .ok (.vBool (svTRUE (.scalar fl iv nv pv u)))
      else .error "expected bool value"
  | .hv _ => .error "invalid type: map, expected a boolean"
  | .av _ => .error "invalid type: sequence, expected a boolean"
  | .rv _ => .error "unreachable: deref_current left a reference"

/-- deserialize_any_iv (de.rs lines 126-152) driving serde's i64 visitor: an
integer-flagged cell yields its IV; the double, string, none and unit visits
are rejected by that visitor with serde's invalid-type errors, as are
visit_map and visit_seq for hashes and arrays. -/
def deserialize_i64_req (input : PerlVal) : Except Err RVal :=
  match derefCurrent input with
  | .scalar fl iv _ _ _ =>
      if fl.integer then .ok (.vI64 iv)
      else if fl.double then .error "invalid type: floating point, expected i64"
      else if fl.string then .error "invalid type: string, expected i64"
      else .error "invalid type: unit, expected i64"
  | .hv _ => .error "invalid type: map, expected i64"
  | .av _ => .error "invalid type: sequence, expected i64"
  | .rv _ => .error "unreachable: deref_current left a reference"

/-- deserialize_any_iv driving serde's u64 visitor: as for i64, except that
visit_i64 converts through try_from and rejects negative values. -/
def deserialize_u64_req (input : PerlVal) : Except Err RVal :=
  match derefCurrent input with
  | .scalar fl iv _ _ _ =>
      if fl.integer then
        if 0 ≤ iv then .ok (.vU64 iv.toNat)
        else .error "invalid value: integer out of range for u64"
      else if fl.double then .error "invalid type: floating point, expected u64"
      else if fl.string then .error "invalid type: string, expected u64"
      else .error "invalid type: unit, expected u64"
  | .hv _ => .error "invalid type: map, expected u64"
  | .av _ => .error "invalid type: sequence, expected u64"
  | .rv _ => .error "unreachable: deref_current left a reference"

/-- deserialize_string → deserialize_any → deserialize_any_string (de.rs
lines 95-123) driving serde's String visitor: a string-flagged cell yields
its PV; every other visit is rejected by that visitor. -/
def deserialize_str_req (input : PerlVal) : Except Err RVal :=
  match derefCurrent input with
  | .scalar fl _ _ pv _ =>
      if fl.string then .ok (.vStr pv)
      else if fl.double then .error "invalid type: floating point, expected a string"
      else if fl.integer then .error "invalid type: integer, expected a string"
      else .error "invalid type: unit, expected a string"
  | .hv _ => .error "invalid type: map, expected a string"
  | .av _ => .error "invalid type: sequence, expected a string"
  | .rv _ => .error "unreachable: deref_current left a reference"

/-- Deserialization of the Rust unit type (used by unit_variant when the
variant carries a payload value): deserialize_unit → deserialize_any with
serde's unit visitor, which accepts the unit and none visits and rejects
everything else. -/
def deserialize_unit_req (input : PerlVal) : Except Err Unit :=
  match derefCurrent input with
  | .scalar fl _ _ _ _ =>
      if fl.string then .error "invalid type: string, expected unit"
      else if fl.double then .error "invalid type: floating point, expected unit"
      else if fl.integer then .error "invalid type: integer, expected unit"
      else .ok ()
  | .hv _ => .error "invalid type: map, expected unit"
  | .av _ => .error "invalid type: sequence, expected unit"
  | .rv _ => .error "unreachable: deref_current left a reference"

/-- The else branch of deserialize_option (de.rs line 403, option_allowed
false): `self.deserialize_any(visitor)` with serde's option visitor.
deserialize_any never issues visit_some, and the option visitor accepts only
visit_none and visit_unit (both yielding None) and rejects every concrete
visit with an invalid-type error. -/
def deserialize_option_suppressed (input : PerlVal) : Except Err RVal :=
  match derefCurrent input with
  | .scalar fl _ _ _ _ =>
      if fl.string then .error "invalid type: string, expected option"
      else if fl.double then .error "invalid type: floating point, expected option"
      else if fl.integer then .error "invalid type: integer, expected option"
      else .ok .vNone
  | .hv _ => .error "invalid type: map, expected option"
  | .av _ => .error "invalid type: sequence, expected option"
  | .rv _ => .error "unreachable: deref_current left a reference"

mutual

/-- The statically known type that directs deserialization: the part of the
serde data model the claims exercise. -/
inductive RTy where
  | tBool
  | tI64
  | tU64
  | tStr
  | tOption (t : RTy)
  | tEnum (variants : List (String × VariantTy))

/-- The shape of one externally tagged enum variant. -/
inductive VariantTy where
  | unitV
  | newtypeV (t : RTy)
  | tupleV (ts : List RTy)

end

/-- Derived enum identifier matching: the variant with the given name (serde
rejects an unknown variant name). -/
def lookupVariant : List (String × VariantTy) → String → Option VariantTy
  | [], _ => none
  | (k, vt) :: rest, name => if k = name then some vt else lookupVariant rest name

mutual

/-- The deserializer of de.rs driven by the requested type.  Every path
starts with `get()` (deref_current plus sanity_check; sanity_check's
weird-magic failure is unrepresentable in this model).  `optAllowed` is the
deserializer's option_allowed field: from_value starts it true;
deserialize_option (de.rs lines 386-405) maps an undefined scalar to None,
otherwise turns the field off around visit_some; when the field is off it
falls back to deserialize_any with serde's option visitor.  Fresh
sub-deserializers (one per element, hash entry or variant payload) start with
option_allowed true again.  deserialize_enum (de.rs lines 487-541) accepts a
string-flagged scalar as a unit variant name and a Hash with exactly one
entry as an externally tagged variant, and rejects everything else.  `fuel`
bounds the recursion depth. -/
def deserialize : Nat → Bool → RTy → PerlVal → Except Err RVal
  | 0, _, _, _ => .error "recursion limit reached"
  | Nat.succ fuel, optAllowed, ty, input =>
    match ty with
    | .tBool => deserialize_bool input
    | .tI64 => deserialize_i64_req input
    | .tU64 => deserialize_u64_req input
    | .tStr => deserialize_str_req input
    | .tOption t =>
        if optAllowed then
          match derefCurrent input with
          | .scalar fl iv nv pv u =>
              if fl.isEmpty then .ok .vNone
              else (deserialize fuel false t (.scalar fl iv nv pv u)).map RVal.vSome
          | v => (deserialize fuel false t v).map RVal.vSome
        else deserialize_option_suppressed input
    | .tEnum variants =>
        match derefCurrent input with
        | .scalar fl _ _ pv _ =>
            if fl.string then
              match lookupVariant variants pv with
              | some vt => variantDecode fuel pv vt none
              | none => .error "unknown variant"
            else .error "expected an enum value"
        | .hv entries =>
            match entries with
            | [(key, value)] =>
                match lookupVariant variants key with
                | some vt => variantDecode fuel key vt (some value)
                | none => .error "unknown variant"
            | _ => .error "expected hash with a single key"
        | _ => .error "expected a string or hash for an enum"

/-- VariantAccess of de.rs (VariantDeserializer, lines 601-653) combined with
the derived variant visitors: unit_variant deserializes a unit from a payload
value when one is present; newtype_variant_seed deserializes the payload with
a fresh Deserializer; tuple_variant matches the payload Value directly
against Value::Array — an empty array is the visit_unit acceptance path,
which the derived visitor takes exactly for a zero-field tuple variant — and
fails with "expected tuple variant" for any payload that is not an Array
(a Reference included, since nothing dereferences the payload first). -/
def variantDecode : Nat → String → VariantTy → Option PerlVal → Except Err RVal
  | 0, _, _, _ => .error "recursion limit reached"
  | Nat.succ fuel, name, vt, payload =>
    match vt, payload with
    | .unitV, none => .ok (.vUnitVariant name)
    | .unitV, some v => (deserialize_unit_req v).map fun _ => RVal.vUnitVariant name
    | .newtypeV t, some v => (deserialize fuel true t v).map (RVal.vNewtypeVariant name)
    | .newtypeV _, none => .error "expected newtype variant, found unit variant"
    | .tupleV ts, some (.av elems) =>
        if elems.isEmpty then
          if ts.isEmpty then .ok (.vTupleVariant name [])
          else .error "invalid type: unit, expected tuple variant"
        else (tupleElems fuel ts elems).map (RVal.vTupleVariant name)
    | .tupleV _, some _ => .error "expected tuple variant"
    | .tupleV _, none => .error "expected tuple variant, found unit"

/-- The derived tuple-variant visitor's visit_seq: one element per field type
through ArrayAccess, each with a fresh Deserializer; a sequence that ends
early is an invalid-length error and surplus elements are left unread. -/
def tupleElems : Nat → List RTy → List PerlVal → Except Err (List RVal)
  | 0, _, _ => .error "recursion limit reached"
  | Nat.succ _, [], _ => .ok []
  | Nat.succ _, _ :: _, [] => .error "invalid length"
  | Nat.succ fuel, t :: ts, e :: es => do
      let x ← deserialize fuel true t e
      let xs ← tupleElems fuel ts es
      .ok (x :: xs)

end

/-- The recursion budget the top-level entry points use; the concrete inputs
in this development are nowhere near this deep. -/
def defaultFuel : Nat := 64

/-- de.rs `from_value` (lines 27-35): install the raw guard with the flag
set, deserialize with a fresh Deserializer (option_allowed = true), and
return; the pair's second component is the thread-local flag after the call
returns and the guard is dropped. -/
def from_value (ty : RTy) (v : PerlVal) (flag : Bool) : Except Err RVal × Bool :=
  let gf := rawGuarded true flag
  (deserialize defaultFuel true ty v, dropRawGuard gf.1 gf.2)

/-- Composition of serialization and deserialization at a given type: the
round trip the spec's testable property quantifies over. -/
def roundTrip (ty : RTy) (x : RVal) : Except Err RVal :=
  match (to_value x false).1 with
  | .ok v => (from_value ty v false).1
  | .error e => .error e

/-- Reference counts of the interpreter heap, by SV pointer.  Modelled from
the spec: the glue's RSPL_SvREFCNT_inc and RSPL_SvREFCNT_dec adjust one
cell's count. -/
def RcHeap := Nat → Nat

/-- RSPL_SvREFCNT_inc on pointer p. -/
def rcInc (h : RcHeap) (p : Nat) : RcHeap :=
  fun q => if q = p then h q + 1 else h q

/-- RSPL_SvREFCNT_dec on pointer p. -/
def rcDec (h : RcHeap) (p : Nat) : RcHeap :=
  fun q => if q = p then h q - 1 else h q

/-- The raw-value struct name reserved by raw_value.rs (`NAME`). -/
def rawValueName : String := "$__perlmod_private_RawValue"

/-- The raw-value field name reserved by raw_value.rs (`VALUE`). -/
def rawValueField : String := "$__perlmod_private_raw_value"

/-- The serializer side of the raw escape, for a live value with SV pointer
p.  RawValue::serialize (raw_value.rs lines 110-129) first sets the
thread-local via guarded(true), so serialize_struct (ser.rs lines 203-213)
sees the flag enabled together with the reserved name and field count and
selects SerHash::raw; serialize_field then routes the pointer (as a usize)
through RawValueSerializer::serialize_u64, which is Value::from_raw_ref: the
same pointer wrapped as a new owned reference, one refcount increment. -/
def serializeRawToken (p : Nat) (h : RcHeap) : Nat × RcHeap :=
  (p, rcInc h p)

/-- The deserializer side of the raw escape: deserialize_struct (de.rs lines
465-485) on the reserved name and field list.  With the scoped flag disabled
it fails with the explicit error; enabled, RawDeserializer hands the input
value's own SV pointer to RawValue's visitor, which rebuilds it with
Value::from_raw_ref — the same pointer, one refcount increment. -/
def deserializeRawToken (flag : Bool) (w : Nat) (h : RcHeap) :
    Except Err (Nat × RcHeap) :=
  if flag then .ok (w, rcInc h w)
  else .error "attempted raw value deserialization while disabled"

/-- from_value consumes its input Value: the Deserializer holds it and drops
it when the call returns, one refcount decrement on the input's pointer. -/
def fromValueRaw (flag : Bool) (w : Nat) (h : RcHeap) :
    Except Err (Nat × RcHeap) :=
  (deserializeRawToken flag w h).map fun r => (r.1, rcDec r.2 w)

/-- Serializing the raw token for a live value and deserializing the result
back, with the intermediate Value consumed by from_value. -/
def rawRoundTrip (flag : Bool) (p : Nat) (h : RcHeap) :
    Except Err (Nat × RcHeap) :=
  let sr := serializeRawToken p h
  fromValueRaw flag sr.1 sr.2

/-- The interpreter heap as Array::get sees it: each AV pointer maps to its
element SV pointers, and every SV pointer has a reference count.  Modelled
from the spec: the glue's RSPL_av_fetch returns the slot at an index or null
when the index is out of range. -/
structure AvHeap where
  arrays : Nat → Option (List Nat)
  rc : Nat → Nat

/-- Array::get (array.rs lines 86-94): av_fetch with lval = 0 yields None
when the index is out of range; an existing element is wrapped with
Value::from_raw_ref, a fresh owned reference obtained by incrementing the
element's reference count.  Nothing else in the heap changes. -/
def array_get (h : AvHeap) (a : Nat) (i : Nat) : Option Nat × AvHeap :=
  match h.arrays a with
  | none => (none, h)
  | some elems =>
      match elems[i]? with
      | none => (none, h)
      | some p => (some p, { h with rc := rcInc h.rc p })

/-- A magic vtable (ffi::MGVTBL) reduced to what remove_magic inspects: its
identity (the static tag's address) and whether a free callback is
registered. -/
structure MGVTBL where
  id : Nat
  hasFree : Bool
deriving DecidableEq, Repr

/-- The error type of the magic subsystem (error.rs MagicError): only the
NotFound case is reachable from remove_magic. -/
inductive MagicError where
  | notFound
deriving DecidableEq, Repr

/-- One magic attachment on a perl value: its type (`how`), its vtable and
the leaked payload pointer (none models a null pointer).  Modelled from the
spec: the glue's RSPL_sv_magicext stores an opaque attachment with these
fields. -/
structure MagicEntry (P : Type) where
  how : Int
  vtbl : MGVTBL
  ptr : Option P

/-- ScalarRef::add_magic (scalar.rs lines 525-535): leak the payload and
prepend the attachment to the value's magic chain. -/
def add_magic {P : Type} (how : Int) (vtbl : MGVTBL) (payload : P)
    (magic : List (MagicEntry P)) : List (MagicEntry P) :=
  ⟨how, vtbl, some payload⟩ :: magic

/-- find_raw_magic (scalar.rs lines 508-521) via RSPL_mg_findext: the first
attachment whose type and vtable identity match.  Modelled from the spec for
the glue lookup. -/
def find_raw_magic {P : Type} (how : Int) (vtbl : MGVTBL) :
    List (MagicEntry P) → Option (MagicEntry P)
  | [] => none
  | e :: rest =>
      if e.how = how ∧ e.vtbl.id = vtbl.id then some e
      else find_raw_magic how vtbl rest

/-- remove_raw_magic (scalar.rs lines 495-503) via RSPL_sv_unmagicext:
detach every attachment whose type and vtable identity match.  Modelled from
the spec for the glue removal. -/
def remove_raw_magic {P : Type} (how : Int) (vtbl : MGVTBL)
    (magic : List (MagicEntry P)) : List (MagicEntry P) :=
  magic.filter fun e => !(decide (e.how = how ∧ e.vtbl.id = vtbl.id))

/-- ScalarRef::remove_magic (scalar.rs lines 572-597): look the attachment
up; a miss is the NotFound error.  On a match, the vtable-identity assertion
holds by the lookup itself; when the matched vtable registers a free
callback the payload is left to the auto-free path (None), otherwise it is
reclaimed.  The raw magic is removed in either case before returning. -/
def remove_magic {P : Type} (how : Int) (vtbl : MGVTBL)
    (magic : List (MagicEntry P)) :
    Except MagicError (Option P) × List (MagicEntry P) :=
  let result : Except MagicError (Option P) :=
    match find_raw_magic how vtbl magic with
    | none => .error .notFound
    | some mg => .ok (if mg.vtbl.hasFree then none else mg.ptr)
  (result, remove_raw_magic how vtbl magic)

theorem find_raw_magic_after_remove {P : Type} (how : Int) (vtbl : MGVTBL)
    (magic : List (MagicEntry P)) :
    find_raw_magic how vtbl (remove_raw_magic how vtbl magic) = none := by
  induction magic with
  | nil => rfl
  | cons e rest ih =>
      by_cases hm : e.how = how ∧ e.vtbl.id = vtbl.id
      · simpa [remove_raw_magic, List.filter, hm] using ih
      · simpa [remove_raw_magic, List.filter, hm, find_raw_magic] using ih

/-- Supporting evidence for the round-trip property on the shapes the
serializer handles as the spec describes: primitives, unit variants and
newtype variants all deserialize back to the value serialized.  This
isolates the tuple-variant failure below as the point where the code departs
from the spec. -/
theorem roundtrip_holds_on_unbroken_shapes :
    ∀ (b : Bool) (n : Int) (m : Nat) (s : String),
      roundTrip .tBool (.vBool b) = .ok (.vBool b)
      ∧ roundTrip .tI64 (.vI64 n) = .ok (.vI64 n)
      ∧ roundTrip .tU64 (.vU64 m) = .ok (.vU64 m)
      ∧ roundTrip .tStr (.vStr s) = .ok (.vStr s)
      ∧ roundTrip (.tOption .tI64) .vNone = .ok .vNone
      ∧ roundTrip (.tOption .tI64) (.vSome (.vI64 n)) = .ok (.vSome (.vI64 n))
      ∧ roundTrip (.tEnum [("A", .unitV), ("B", .newtypeV .tI64)])
          (.vUnitVariant "A") = .ok (.vUnitVariant "A")
      ∧ roundTrip (.tEnum [("A", .unitV), ("B", .newtypeV .tI64)])
          (.vNewtypeVariant "B" (.vI64 n)) = .ok (.vNewtypeVariant "B" (.vI64 n)) := by
  intro b n m s
  refine ⟨?_, rfl, rfl, rfl, rfl, rfl, rfl, rfl⟩
  cases b <;> rfl

/-- C1.  The claim says deserializing the serialization of every supported
primitive, struct or enum shape succeeds and returns the original value.  The
code violates it: serializing the tuple variant Another(1, 2) produces a bare
reference to the fields Array (`SerVariant<SerArray>::end` returns
`Value::new_ref(&self.inner.array)`, discarding the single-key hash its
constructor built), which deserialize_enum then rejects because it is
neither a string nor a hash. -/
theorem c1_roundtrip_fails_on_tuple_variant :
    roundTrip (.tEnum [("Something", .newtypeV .tStr), ("Another", .tupleV [.tI64, .tI64])])
        (.vTupleVariant "Another" [.vI64 1, .vI64 2])
      = .error "expected a string or hash for an enum" := by
  rfl

/-- C2.  The claim says the thread-local raw-passthrough flag is restored to
its pre-call value on every exit path of to_value / from_value.  The code
violates it: RawGuard has no Drop impl, so after a top-level call that
entered with the flag off, the flag is left on. -/
theorem c2_flag_left_enabled_after_call :
    (to_value (.vI64 5) false).2 = true ∧ (from_value .tI64 (mkInt 5) false).2 = true := by
  exact ⟨rfl, rfl⟩

/-- C3.  The claim says tuple and struct variants both serialize to a
single-key map.  Evaluating the serializer: the tuple variant Another(1, 2)
yields a bare reference to the Array of fields with no enclosing map, while
the struct variant twin does yield the single-key map the claim describes. -/
theorem c3_tuple_variant_serializes_bare_array :
    (to_value (.vTupleVariant "Another" [.vI64 1, .vI64 2]) false).1
        = .ok (.rv (.av [mkInt 1, mkInt 2]))
    ∧ (to_value (.vStructVariant "Var" [("a", .vI64 1)]) false).1
        = .ok (.rv (.hv [("Var", .rv (.hv [("a", mkInt 1)]))])) := by
  exact ⟨rfl, rfl⟩

/-- C4.  For a value carrying an attached magic payload: when the Tag's
vtable registers a free callback, remove_magic returns Ok(None) on the
positive match; when it registers none, the first call returns
Ok(Some(payload)) and a second call on the (now detached) value returns the
NotFound error. -/
theorem c4_remove_magic_duality :
    ∀ (P : Type) (how : Int) (vtbl : MGVTBL) (payload : P) (m0 : List (MagicEntry P)),
      (vtbl.hasFree = true →
        (remove_magic how vtbl (add_magic how vtbl payload m0)).1 = .ok none)
      ∧ (vtbl.hasFree = false →
          (remove_magic how vtbl (add_magic how vtbl payload m0)).1 = .ok (some payload)
          ∧ (remove_magic how vtbl
              (remove_magic how vtbl (add_magic how vtbl payload m0)).2).1
            = .error .notFound) := by
  intro P how vtbl payload m0
  refine ⟨fun hfree => ?_, fun hfree => ⟨?_, ?_⟩⟩
  · simp [remove_magic, add_magic, find_raw_magic, hfree]
  · simp [remove_magic, add_magic, find_raw_magic, hfree]
  · simp [remove_magic, find_raw_magic_after_remove]

/-- C5.  With the scoped raw-passthrough flag enabled, serializing the raw
token for a live value with SV pointer p and deserializing it back (the
intermediate Value being consumed by from_value) yields the same pointer and
leaves the heap with exactly one extra reference on p; with the flag
disabled, raw deserialization fails with the explicit disabled error. -/
theorem c5_raw_roundtrip_identity_and_refcount :
    ∀ (p : Nat) (h : RcHeap),
      rawRoundTrip true p h = .ok (p, rcInc h p)
      ∧ deserializeRawToken false p h
          = .error "attempted raw value deserialization while disabled" := by
  intro p h
  constructor
  · show Except.ok (p, rcDec (rcInc (rcInc h p) p) p) = Except.ok (p, rcInc h p)
    have hrc : rcDec (rcInc (rcInc h p) p) p = rcInc h p := by
      funext q
      by_cases hq : q = p <;> simp [rcInc, rcDec, hq]
    rw [hrc]
  · rfl

/-- C6 counterexample.  The claim says Some(None) at type Option(Option i32)
round-trips to Some(None); evaluating the code, the round trip returns the
outer None instead. -/
theorem c6_counterexample :
    roundTrip (.tOption (.tOption .tI64)) (.vSome .vNone) = .ok .vNone
    ∧ roundTrip (.tOption (.tOption .tI64)) (.vSome .vNone) ≠ .ok (.vSome .vNone) := by
  refine ⟨rfl, fun hcontra => ?_⟩
  have hok : (Except.ok RVal.vNone : Except Err RVal) = .ok (.vSome .vNone) := hcontra
  simp at hok

/-- C6 amended.  Serializing Some(None) erases the Some level (serialize_some
serializes the inner value with no wrapper), yielding the undefined value,
and deserializing that at Option(Option i32) yields the outer None: nested
options collapse on the undefined value. -/
theorem c6_amended_nested_option_collapses :
    (to_value (.vSome .vNone) false).1 = .ok undefVal
    ∧ roundTrip (.tOption (.tOption .tI64)) (.vSome .vNone) = .ok .vNone := by
  exact ⟨rfl, rfl⟩

/-- C7.  Evaluating deserialize_enum:  a single-key hash with key Something
and string value "abc" decodes to Something("abc"); a bare string scalar
"Another" against a unit-only schema decodes to that unit variant; but the
single-key hash with key Another whose value is (as perl stores it) a
reference to the array of 1 and 2 is rejected with "expected tuple variant",
because tuple_variant matches the payload against Value::Array without
dereferencing it first. -/
theorem c7_enum_decode_cases :
    (from_value (.tEnum [("Something", .newtypeV .tStr), ("Another", .tupleV [.tI64, .tI64])])
        (.hv [("Something", mkStr "abc")]) false).1
      = .ok (.vNewtypeVariant "Something" (.vStr "abc"))
    ∧ (from_value (.tEnum [("Something", .unitV), ("Another", .unitV)])
        (mkStr "Another") false).1
      = .ok (.vUnitVariant "Another")
    ∧ (from_value (.tEnum [("Something", .newtypeV .tStr), ("Another", .tupleV [.tI64, .tI64])])
        (.hv [("Another", .rv (.av [mkInt 1, mkInt 2]))]) false).1
      = .error "expected tuple variant" := by
  exact ⟨rfl, rfl, rfl⟩

/-- C8 counterexample.  The claim says construction of a tagged Value from a
raw handle detects the Reference case first, so a handle satisfying the
reference check is always classified as Reference.  The classifier of
`impl From<Scalar> for Value` checks the array predicate first: on predicate
results (array true, hash false, reference true) it classifies as Array, not
Reference, while the spec-order classifier yields Reference. -/
theorem c8_counterexample :
    classifyFromFlags true false true = ValueTag.array
    ∧ classifyFromFlags true false true ≠ ValueTag.reference
    ∧ classifySpecOrder true false true = ValueTag.reference := by
  refine ⟨rfl, fun hcontra => ?_, rfl⟩
  have harr : ValueTag.array = ValueTag.reference := hcontra
  cases harr

/-- C8 amended.  Construction checks Array first, then Hash, then Reference,
then the scalar sub-kind.  For interpreter values — where the three glue
predicates are mutually exclusive by the data model — a handle satisfying the
reference check is still always classified as Reference. -/
theorem c8_amended_reference_classified :
    ∀ v : PerlVal, RSPL_is_reference v = true → valueFromScalar v = ValueTag.reference := by
  intro v href
  cases v with
  | rv t => rfl
  | scalar fl iv nv pv u => cases href
  | av elems => cases href
  | hv entries => cases href

theorem c8_amended_witness :
    valueFromScalar (.rv undefVal) = ValueTag.reference :=
  c8_amended_reference_classified (.rv undefVal) rfl

/-- C9.  Array::get returns the element at the index as a fresh borrowed
Value — Some exactly when the index is in range, obtained by one reference
count increment on the element and nothing else — and None with the heap
untouched when the index is out of range; the array itself is unchanged. -/
theorem c9_array_get_borrows :
    ∀ (h : AvHeap) (a i : Nat) (elems : List Nat),
      h.arrays a = some elems →
        (array_get h a i).1 = elems[i]?
        ∧ (array_get h a i).2.arrays = h.arrays
        ∧ (∀ p, elems[i]? = some p → (array_get h a i).2.rc = rcInc h.rc p)
        ∧ (elems[i]? = none → array_get h a i = (none, h)) := by
  intro h a i elems ha
  have hag : array_get h a i = (match elems[i]? with
      | none => (none, h)
      | some p => (some p, { h with rc := rcInc h.rc p })) := by
    unfold array_get
    rw [ha]
  cases hget : elems[i]? with
  | none =>
      rw [hget] at hag
      refine ⟨?_, ?_, ?_, ?_⟩
      · rw [hag]
      · rw [hag]
      · intro q hq
        simp at hq
      · intro _
        rw [hag]
  | some p =>
      rw [hget] at hag
      refine ⟨?_, ?_, ?_, ?_⟩
      · rw [hag]
      · rw [hag]
      · intro q hq
        obtain rfl := Option.some.inj hq
        rw [hag]
      · intro hnone
        simp at hnone

theorem c9_array_get_witness :
    (array_get ⟨fun n => if n = 1 then some [7] else none, fun _ => 3⟩ 1 0).1
      = ([7] : List Nat)[0]? :=
  (c9_array_get_borrows ⟨fun n => if n = 1 then some [7] else none, fun _ => 3⟩
    1 0 [7] rfl).1

/-- C10.  deserialize_bool is an exception to the scalar coercion rules: a
scalar whose flags include STRING and neither INTEGER nor DOUBLE fails with
"expected bool value", while a scalar with empty flags (undefined) or with
the INTEGER or DOUBLE flag is accepted and decoded by the host truthiness
rule RSPL_SvTRUE. -/
theorem c10_bool_rejects_pure_strings :
    ∀ (fl : Flags) (iv nv : Int) (pv : String) (u : Bool),
      ((fl.string = true ∧ fl.integer = false ∧ fl.double = false) →
        deserialize_bool (.scalar fl iv nv pv u) = .error "expected bool value")
      ∧ ((fl.isEmpty = true ∨ fl.integer = true ∨ fl.double = true) →
        deserialize_bool (.scalar fl iv nv pv u)
          = .ok (.vBool (svTRUE (.scalar fl iv nv pv u)))) := by
  intro fl iv nv pv u
  obtain ⟨fi, fd, fs⟩ := fl
  constructor
  · rintro ⟨hs, hi, hd⟩
    subst hs; subst hi; subst hd
    rfl
  · intro hacc
    cases fi <;> cases fd <;> cases fs <;>
      simp_all [deserialize_bool, derefCurrent, Flags.isEmpty]

end Perlmod
